import Mathlib

/-!
Verification development for the pop-js core: a shallow embedding of the
scan → parse → evaluate pipeline of `pop.js` (the most complete iteration of
the source, the one with IF/FOR/WHILE), together with theorems settling the
frozen behavioural claims.

Modelling conventions:
* JS numbers are modelled as `ℚ`.  Every concrete program examined here only
  performs arithmetic that is exact in IEEE doubles and in `ℚ` alike.
* JS `null`/`undefined` slots are modelled as `Option`.
* An uncaught JS exception (calling a missing method, invoking a class
  constructor without `new`, reading a property of `null`) is modelled as the
  `Except.error` side of the result; a normal return is `Except.ok`.
* The process-wide mutable `GLOBAL` symbol table is threaded explicitly:
  `run` takes the table before the call and returns the table after it.
* The recursive-descent parser and the tree walker receive an explicit fuel
  argument (`Nat`); `run` passes a fuel that is far larger than the recursion
  depth reachable on its input, so the fuel-exhaustion branch is dead on every
  program considered in the theorems below.
-/

namespace Pop

/-- Source position (JS `class Position`).  `fileTxt` is stored by the JS
constructor but never read anywhere, so it is omitted.  The JS constructor
starts at `(-1, 0, -1)` and is stepped once before any position is observed,
hence the fields are natural numbers. -/
structure Pos where
  idx : Nat
  ln : Nat
  col : Nat
  fileName : String
deriving Repr, DecidableEq

/-- `Position.step(curr)`: advance one character; stepping over a newline
starts a new line. -/
def Pos.step (p : Pos) (curr : Option Char) : Pos :=
  let q : Pos := { p with idx := p.idx + 1, col := p.col + 1 }
  if curr = some '\n' then { q with ln := q.ln + 1, col := 0 } else q

/-- Token kinds (the JS string constants `INT`, `FLOAT`, …). -/
inductive TokType where
  | INT
  | FLOAT
  | IDENTIFIER
  | KEYWORD
  | PLUS
  | MINUS
  | MUL
  | DIV
  | POW
  | ASSIGN
  | LPAREN
  | RPAREN
  | EQ
  | NE
  | LT
  | GT
  | LTE
  | GTE
  | EOF
deriving Repr, DecidableEq

/-- A token's `value` slot.  Number tokens carry a number, identifier/keyword
tokens carry their text.  Because of an argument-order slip in `parseComp`
and `parseEQ` (`new Token(type, start, this.pos)` against the signature
`(type, value, start, end)`), the `=`-family tokens carry a `Position` in
their value slot; that value is never read on any reachable path. -/
inductive TValue where
  | num (q : ℚ)
  | str (s : String)
  | position (p : Pos)
deriving Repr, DecidableEq

/-- JS `class Token`.  `startP`/`endP` are the JS `start`/`end` fields
(`end` is reserved in Lean). -/
structure Token where
  type : TokType
  value : Option TValue
  startP : Option Pos
  endP : Option Pos
deriving Repr, DecidableEq

/-- The JS `Token` constructor: if a start position is given, `end` defaults
to one step past it; an explicit `end` argument overrides that default. -/
def Token.make (t : TokType) (v : Option TValue) (s : Option Pos) (e : Option Pos) : Token :=
  let en : Option Pos :=
    match e, s with
    | some p, _ => some p
    | none, some p => some (p.step none)
    | none, none => none
  ⟨t, v, s, en⟩

/-- `Token.equals(other)`: type and value must both match.  JS compares the
value slots with `===`; the only values ever actually compared on reachable
paths are keyword/identifier strings (and `null`), for which `===` coincides
with structural equality. -/
def Token.jsEquals (a b : Token) : Bool :=
  a.type == b.type && a.value == b.value

/-- A keyword token with no position, as built inline by the parser for
`equals` comparisons (`new Token(KEYWORD, 'VAR')` etc.). -/
def kw (s : String) : Token :=
  Token.make .KEYWORD (some (.str s)) none none

/-- The single JS diagnostic shape: `Error` and its subclasses collapse to a
record whose `name` field is the subclass name ("Illegal Character",
"Expected Character", "Invalid Syntax", "Runtime Error").  `context` is the
name of the evaluation context attached to runtime errors (always
`<pop-main>` in practice); it is only used for traceback rendering. -/
structure Error where
  startP : Option Pos
  endP : Option Pos
  name : String
  details : String
  context : Option String
deriving Repr, DecidableEq

def illegalCharError (s e : Pos) (d : String) : Error :=
  ⟨some s, some e, "Illegal Character", d, none⟩

def expectedCharError (s e : Pos) (d : String) : Error :=
  ⟨some s, some e, "Expected Character", d, none⟩

def invalidSyntaxAt (t : Token) (d : String) : Error :=
  ⟨t.startP, t.endP, "Invalid Syntax", d, none⟩

/-- Sentinel for the embedding's fuel running out.  The fuel passed by `run`
always exceeds the recursion depth of the JS original on the inputs studied
here, so no theorem below ever meets this error. -/
def fuelError : Error :=
  ⟨none, none, "EmbeddingFuelExhausted", "", none⟩

/-! ## Lexer -/

def KEYWORDS : List String :=
  ["VAR", "AND", "NOT", "OR", "IF", "DO", "ELIF", "ELSE", "FOR", "UPTO", "STEP", "WHILE"]

/-- The JS `LETTERS` set: exactly the 52 ASCII letters. -/
def isLetterCh (c : Char) : Bool :=
  ('a' ≤ c && c ≤ 'z') || ('A' ≤ c && c ≤ 'Z')

/-- The JS `DIGITS` set: `'0'`–`'9'`. -/
def isDigitCh (c : Char) : Bool :=
  '0' ≤ c && c ≤ '9'

/-- The JS `WHITESPACE` set: space and tab only (newline deliberately not). -/
def isWhitespaceCh (c : Char) : Bool :=
  c == ' ' || c == '\t'

def digitsToNat (l : List Char) : Nat :=
  l.foldl (fun a c => 10 * a + (c.toNat - '0'.toNat)) 0

/-- Value of a scanned numeric literal (digits with at most one dot), i.e.
`parseInt` for pure digit strings and `parseFloat` for strings with a dot.
All literals in the programs studied here are exactly representable both as
IEEE doubles and in `ℚ`. -/
def numLitVal (chars : List Char) : ℚ :=
  let intPart := chars.takeWhile (fun c => c ≠ '.')
  let fracPart := (chars.dropWhile (fun c => c ≠ '.')).drop 1
  (digitsToNat intPart : ℚ) + (digitsToNat fracPart : ℚ) / ((10 : ℚ) ^ fracPart.length)

/-- The scanning loop of `Lexer.parseNumber`: consume digits and at most one
dot.  A second dot stops the scan without being consumed (`if (this.curr ===
'.' && dot++) break;` — note the post-increment still bumps `dot`).
Returns (collected characters, dot counter, remaining input, position). -/
def scanNumber : List Char → Pos → List Char → Nat → (List Char × Nat × List Char × Pos)
  | [], pos, acc, dot => (acc.reverse, dot, [], pos)
  | c :: rest, pos, acc, dot =>
    if c == '.' || isDigitCh c then
      if c == '.' then
        if dot > 0 then (acc.reverse, dot + 1, c :: rest, pos)
        else scanNumber rest (pos.step (some c)) (c :: acc) (dot + 1)
      else scanNumber rest (pos.step (some c)) (c :: acc) dot
    else (acc.reverse, dot, c :: rest, pos)

/-- `Lexer.parseNumber`.  The JS constructor call passes the *live* lexer
position as the token's `end`; that aliased object keeps advancing until the
scan finishes, so the real `end` of every number token is the final scan
position.  Here `endP` is left as the constructor default and patched to the
final position in `Lexer.makeTokens` below. -/
def Lexer.parseNumber (rest : List Char) (pos : Pos) : Token × List Char × Pos :=
  let start := pos
  let (chars, dot, rest', pos') := scanNumber rest pos [] 0
  let tok :=
    if dot == 0 then Token.make .INT (some (.num (numLitVal chars))) (some start) none
    else Token.make .FLOAT (some (.num (numLitVal chars))) (some start) none
  (tok, rest', pos')

/-- The scanning loop of `Lexer.parseIdentifier`: letters, digits, `_`. -/
def scanIdent : List Char → Pos → List Char → (List Char × List Char × Pos)
  | [], pos, acc => (acc.reverse, [], pos)
  | c :: rest, pos, acc =>
    if isLetterCh c || isDigitCh c || c == '_' then
      scanIdent rest (pos.step (some c)) (c :: acc)
    else (acc.reverse, c :: rest, pos)

/-- `Lexer.parseIdentifier`; keyword classification against `KEYWORDS`.
Its `end` position is aliased exactly like `parseNumber`'s (see there). -/
def Lexer.parseIdentifier (rest : List Char) (pos : Pos) : Token × List Char × Pos :=
  let start := pos
  let (chars, rest', pos') := scanIdent rest pos []
  let s := String.mk chars
  let t := if KEYWORDS.contains s then TokType.KEYWORD else TokType.IDENTIFIER
  (Token.make t (some (.str s)) (some start) none, rest', pos')

/-- `Lexer.parseComp` for `<` / `>`.  Mirrors the JS argument-order slip:
`new Token(kind, start, this.pos)` stores the *start* position in the value
slot and the already-advanced position as `start`.  Exactly one character
(the `<`/`>` itself) is consumed here; `makeTokens` always steps once more
afterwards (its `flag` is still true), which consumes the `=` of a
two-character operator — and silently skips the next character after a
one-character `<`/`>`/`=`. -/
def Lexer.parseComp (c : Char) (rest₁ : List Char) (pos : Pos) : Token × List Char × Pos :=
  let start := pos
  let pos₁ := pos.step (some c)
  if rest₁.head? == some '=' then
    (Token.make (if c == '>' then .GTE else .LTE) (some (.position start)) (some pos₁) none,
      rest₁, pos₁)
  else
    (Token.make (if c == '>' then .GT else .LT) (some (.position start)) (some pos₁) none,
      rest₁, pos₁)

/-- `Lexer.parseEQ` for `=` (same argument-order slip as `parseComp`). -/
def Lexer.parseEQ (rest₁ : List Char) (pos : Pos) : Token × List Char × Pos :=
  let start := pos
  let pos₁ := pos.step (some '=')
  if rest₁.head? == some '=' then
    (Token.make .EQ (some (.position start)) (some pos₁) none, rest₁, pos₁)
  else
    (Token.make .ASSIGN (some (.position start)) (some pos₁) none, rest₁, pos₁)

/-- `Lexer.parseNE` for `!`: requires a following `=`, otherwise an
Expected Character diagnostic. -/
def Lexer.parseNE (rest₁ : List Char) (pos : Pos) :
    Option Token × Option Error × List Char × Pos :=
  let start := pos
  let pos₁ := pos.step (some '!')
  if rest₁.head? == some '=' then
    (some (Token.make .NE none (some start) none), none, rest₁, pos₁)
  else
    (none, some (expectedCharError start pos₁ ("'='")), rest₁, pos₁)

/-- The `Lexer.makeTokens` loop.  Branch order matches the JS chain exactly:
digit, letter, `+`, `-`, `*`, `/`, `^`, `!`, `=`, `>`/`<`, `(`, `)`,
whitespace, otherwise Illegal Character (returning an empty token list).
Branches that set `flag = false` (number, identifier) do not step again;
every other branch is followed by the unconditional `flag` step.  Fuel: each
iteration consumes at least one character, so `length + 1` fuel never runs
out; the fuel-out branch returns the sentinel `fuelError`. -/
def Lexer.makeTokensLoop : Nat → List Char → Pos → List Token → (List Token × Option Error × Pos)
  | _, [], pos, tokens => (tokens ++ [Token.make .EOF none (some pos) none], none, pos)
  | 0, _ :: _, pos, _ => ([], some fuelError, pos)
  | Nat.succ fuel, c :: rest, pos, tokens =>
    if isDigitCh c then
      let (tok, rest', pos') := Lexer.parseNumber (c :: rest) pos
      Lexer.makeTokensLoop fuel rest' pos' (tokens ++ [tok])
    else if isLetterCh c then
      let (tok, rest', pos') := Lexer.parseIdentifier (c :: rest) pos
      Lexer.makeTokensLoop fuel rest' pos' (tokens ++ [tok])
    else if c == '+' then
      Lexer.makeTokensLoop fuel rest (pos.step (some c))
        (tokens ++ [Token.make .PLUS none (some pos) none])
    else if c == '-' then
      Lexer.makeTokensLoop fuel rest (pos.step (some c))
        (tokens ++ [Token.make .MINUS none (some pos) none])
    else if c == '*' then
      Lexer.makeTokensLoop fuel rest (pos.step (some c))
        (tokens ++ [Token.make .MUL none (some pos) none])
    else if c == '/' then
      Lexer.makeTokensLoop fuel rest (pos.step (some c))
        (tokens ++ [Token.make .DIV none (some pos) none])
    else if c == '^' then
      Lexer.makeTokensLoop fuel rest (pos.step (some c))
        (tokens ++ [Token.make .POW none (some pos) none])
    else if c == '!' then
      match Lexer.parseNE rest pos with
      | (some tok, _, rest₁, pos₁) =>
        Lexer.makeTokensLoop fuel rest₁.tail (pos₁.step rest₁.head?) (tokens ++ [tok])
      | (none, err, _, _) => ([], err, pos)
    else if c == '=' then
      let (tok, rest₁, pos₁) := Lexer.parseEQ rest pos
      Lexer.makeTokensLoop fuel rest₁.tail (pos₁.step rest₁.head?) (tokens ++ [tok])
    else if c == '>' || c == '<' then
      let (tok, rest₁, pos₁) := Lexer.parseComp c rest pos
      Lexer.makeTokensLoop fuel rest₁.tail (pos₁.step rest₁.head?) (tokens ++ [tok])
    else if c == '(' then
      Lexer.makeTokensLoop fuel rest (pos.step (some c))
        (tokens ++ [Token.make .LPAREN none (some pos) none])
    else if c == ')' then
      Lexer.makeTokensLoop fuel rest (pos.step (some c))
        (tokens ++ [Token.make .RPAREN none (some pos) none])
    else if isWhitespaceCh c then
      Lexer.makeTokensLoop fuel rest (pos.step (some c)) tokens
    else
      let start := pos
      let pos₁ := pos.step (some c)
      ([], some (illegalCharError start pos₁ ("'" ++ String.mk [c] ++ "'")), pos₁)

/-- `Lexer.makeTokens` for a named source text.  After the loop, the `end`
positions that the JS code stored as live aliases of the lexer position
(number and identifier/keyword tokens, see `Lexer.parseNumber`) are resolved
to the final scan position, which is the value they hold once any consumer
reads them. -/
def Lexer.makeTokens (fileName : String) (text : String) : List Token × Option Error :=
  let chars := text.data
  let pos0 : Pos := ⟨0, 0, 0, fileName⟩
  let (tokens, err, finalPos) := Lexer.makeTokensLoop (chars.length + 1) chars pos0 []
  match err with
  | some e => ([], some e)
  | none =>
    (tokens.map (fun t =>
      if t.type == .INT || t.type == .FLOAT || t.type == .IDENTIFIER || t.type == .KEYWORD then
        { t with endP := some finalPos }
      else t), none)

/-! ## AST nodes -/

/-- The tagged node variants (`NumberNode`, `VariableNode`,
`VariableAssignNode`, `BinaryOpNode`, `UnaryOpNode`, `IfStatementNode`,
`ForNode`, `WhileNode`). -/
inductive Node where
  | num (token : Token)
  | varAccess (tokenID : Token)
  | varAssign (tokenID : Token) (value : Node)
  | binOp (left : Node) (op : Token) (right : Node)
  | unaryOp (op : Token) (node : Node)
  | ifStmt (cases : List (Node × Node)) (elseCase : Option Node)
  | forNode (varName : Token) (startVal : Node) (endVal : Node)
      (stepVal : Option Node) (body : Node)
  | whileNode (condition : Node) (body : Node)

mutual

/-- The `start` field each JS node constructor computes from its pieces. -/
def Node.startP : Node → Option Pos
  | .num t => t.startP
  | .varAccess t => t.startP
  | .varAssign t _ => t.startP
  | .binOp l _ _ => Node.startP l
  | .unaryOp op _ => op.startP
  | .ifStmt cases _ => Node.casesStartP cases
  | .forNode v _ _ _ _ => v.startP
  | .whileNode c _ => Node.startP c

/-- `IfStatementNode`: `this.start = this.cases[0][0].start` (the first
condition); an empty case list would crash in JS but is never produced. -/
def Node.casesStartP : List (Node × Node) → Option Pos
  | [] => none
  | (c, _) :: _ => Node.startP c

end

mutual

/-- The `end` field each JS node constructor computes from its pieces. -/
def Node.endP : Node → Option Pos
  | .num t => t.endP
  | .varAccess t => t.endP
  | .varAssign _ v => Node.endP v
  | .binOp _ _ r => Node.endP r
  | .unaryOp _ n => Node.endP n
  | .ifStmt cases elseCase =>
    match elseCase with
    | some e => Node.endP e
    | none => Node.casesEndP cases
  | .forNode _ _ _ _ b => Node.endP b
  | .whileNode _ b => Node.endP b

/-- `IfStatementNode` without else: `this.cases[last][0].end` — note the
`[0]`: the *condition* of the last case, as in the source. -/
def Node.casesEndP : List (Node × Node) → Option Pos
  | [] => none
  | [(c, _)] => Node.endP c
  | _ :: rest => Node.casesEndP rest

end

/-- Placeholder for a JS `null` flowing through a node slot.  It is only ever
produced on paths where the enclosing `ParseResult` already carries an error,
in which case every caller returns before looking at the node. -/
def nullNode : Node :=
  .num (Token.make .EOF none none none)

/-! ## ParseResult and parser -/

/-- JS `class ParseResult`: the error/node pair plus the token-consumption
counter `stepCount` driving the furthest-progress error selection. -/
structure PRes where
  error : Option Error
  node : Option Node
  stepCount : Nat

def emptyPRes : PRes := ⟨none, none, 0⟩

/-- Result used when the embedding's parser fuel runs out (never reached by
`run`'s fuel on the inputs studied here). -/
def fuelOutRes : PRes := ⟨some fuelError, none, 0⟩

/-- `registerStep()`: count one consumed token. -/
def PRes.registerStep (r : PRes) : PRes :=
  { r with stepCount := r.stepCount + 1 }

/-- `register(res)`: absorb a sub-result's step count, adopt its error if it
has one, and hand back its node. -/
def PRes.register (self res : PRes) : PRes × Option Node :=
  ({ self with
      stepCount := self.stepCount + res.stepCount,
      error := match res.error with
        | some e => some e
        | none => self.error },
    res.node)

/-- `success(node)`. -/
def PRes.success (self : PRes) (n : Node) : PRes :=
  { self with node := some n }

/-- `failure(error)`: keep the already-registered error unless none exists or
this result has consumed no tokens — the furthest-progress rule. -/
def PRes.failure (self : PRes) (e : Error) : PRes :=
  if self.error = none ∨ self.stepCount = 0 then { self with error := some e } else self

/-- Parser state: the token list plus the JS `idx` cursor.  `curr` falls back
to a bare EOF token if `idx` ever ran past the list; since every token list
ends in EOF and EOF is never consumed, that default is never read. -/
structure PState where
  tokens : List Token
  idx : Nat

def PState.curr (st : PState) : Token :=
  st.tokens.getD st.idx (Token.make .EOF none none none)

def PState.step (st : PState) : PState :=
  { st with idx := st.idx + 1 }

mutual

/-- `Parser.atom`. -/
def Parser.atom : Nat → PState → PRes × PState
  | 0, st => (fuelOutRes, st)
  | Nat.succ f, st =>
    let res := emptyPRes
    let currToken := st.curr
    if currToken.type == .INT || currToken.type == .FLOAT then
      ((res.registerStep).success (.num currToken), st.step)
    else if currToken.type == .IDENTIFIER then
      ((res.registerStep).success (.varAccess currToken), st.step)
    else if currToken.type == .LPAREN then
      let res := res.registerStep
      let st := st.step
      let (sub, st) := Parser.expr f st
      let (res, nodeOpt) := res.register sub
      if res.error.isSome then (res, st)
      else if (PState.curr st).type == .RPAREN then
        ((res.registerStep).success (nodeOpt.getD nullNode), st.step)
      else
        (res.failure (invalidSyntaxAt st.curr ("Expected ')'")), st)
    else if currToken.jsEquals (kw ("IF")) then
      let (sub, st) := Parser.ifExpr f st
      let (res, nodeOpt) := res.register sub
      if res.error.isSome then (res, st) else (res.success (nodeOpt.getD nullNode), st)
    else if currToken.jsEquals (kw ("FOR")) then
      let (sub, st) := Parser.forExpr f st
      let (res, nodeOpt) := res.register sub
      if res.error.isSome then (res, st) else (res.success (nodeOpt.getD nullNode), st)
    else if currToken.jsEquals (kw ("WHILE")) then
      let (sub, st) := Parser.whileExpr f st
      let (res, nodeOpt) := res.register sub
      if res.error.isSome then (res, st) else (res.success (nodeOpt.getD nullNode), st)
    else
      (res.failure (invalidSyntaxAt currToken ("Expected int, float, identifier, '+', '-' or '('")), st)

/-- `Parser.power`: an atom, then the `(POW factor)*` loop. -/
def Parser.power : Nat → PState → PRes × PState
  | 0, st => (fuelOutRes, st)
  | Nat.succ f, st =>
    let res := emptyPRes
    let (sub, st) := Parser.atom f st
    let (res, leftOpt) := res.register sub
    if res.error.isSome then (res, st)
    else Parser.powerLoop f res (leftOpt.getD nullNode) st

/-- The `while (this.curr.type === POW)` loop of `Parser.power`; the right
operand is parsed by `factor`, which recurses back into `power`, making `^`
right-associative. -/
def Parser.powerLoop : Nat → PRes → Node → PState → PRes × PState
  | 0, _, _, st => (fuelOutRes, st)
  | Nat.succ f, res, left, st =>
    if (PState.curr st).type == .POW then
      let op := st.curr
      let res := res.registerStep
      let st := st.step
      let (sub, st) := Parser.factor f st
      let (res, rightOpt) := res.register sub
      if res.error.isSome then (res, st)
      else Parser.powerLoop f res (.binOp left op (rightOpt.getD nullNode)) st
    else (res.success left, st)

/-- `Parser.factor`: unary `+`/`-`, else `power`. -/
def Parser.factor : Nat → PState → PRes × PState
  | 0, st => (fuelOutRes, st)
  | Nat.succ f, st =>
    let res := emptyPRes
    let currToken := st.curr
    if currToken.type == .PLUS || currToken.type == .MINUS then
      let res := res.registerStep
      let st := st.step
      let (sub, st) := Parser.factor f st
      let (res, nodeOpt) := res.register sub
      if res.error.isSome then (res, st)
      else (res.success (.unaryOp currToken (nodeOpt.getD nullNode)), st)
    else Parser.power f st

/-- `Parser.term`: `factor ((MUL|DIV) factor)*`. -/
def Parser.term : Nat → PState → PRes × PState
  | 0, st => (fuelOutRes, st)
  | Nat.succ f, st =>
    let res := emptyPRes
    let (sub, st) := Parser.factor f st
    let (res, leftOpt) := res.register sub
    if res.error.isSome then (res, st)
    else Parser.termLoop f res (leftOpt.getD nullNode) st

def Parser.termLoop : Nat → PRes → Node → PState → PRes × PState
  | 0, _, _, st => (fuelOutRes, st)
  | Nat.succ f, res, left, st =>
    if (PState.curr st).type == .MUL || (PState.curr st).type == .DIV then
      let op := st.curr
      let res := res.registerStep
      let st := st.step
      let (sub, st) := Parser.factor f st
      let (res, rightOpt) := res.register sub
      if res.error.isSome then (res, st)
      else Parser.termLoop f res (.binOp left op (rightOpt.getD nullNode)) st
    else (res.success left, st)

/-- `Parser.arithExpr`: `term ((PLUS|MINUS) term)*`.  On a failed right
operand it calls `failure` with its own message; `ParseResult.failure` keeps
the deeper error when tokens were already consumed. -/
def Parser.arithExpr : Nat → PState → PRes × PState
  | 0, st => (fuelOutRes, st)
  | Nat.succ f, st =>
    let res := emptyPRes
    let (sub, st) := Parser.term f st
    let (res, leftOpt) := res.register sub
    if res.error.isSome then (res, st)
    else Parser.arithLoop f res (leftOpt.getD nullNode) st

def Parser.arithLoop : Nat → PRes → Node → PState → PRes × PState
  | 0, _, _, st => (fuelOutRes, st)
  | Nat.succ f, res, left, st =>
    if (PState.curr st).type == .PLUS || (PState.curr st).type == .MINUS then
      let op := st.curr
      let res := res.registerStep
      let st := st.step
      let (sub, st) := Parser.term f st
      let (res, rightOpt) := res.register sub
      if res.error.isSome then
        (res.failure (invalidSyntaxAt st.curr ("Expected int, float, identifier, '+', '-', or '(', 'NOT'")), st)
      else Parser.arithLoop f res (.binOp left op (rightOpt.getD nullNode)) st
    else (res.success left, st)

/-- `Parser.compExpr`: `NOT compExpr`, else
`arithExpr ((EQ|NE|LT|GT|LTE|GTE) arithExpr)*`. -/
def Parser.compExpr : Nat → PState → PRes × PState
  | 0, st => (fuelOutRes, st)
  | Nat.succ f, st =>
    let res := emptyPRes
    if (PState.curr st).jsEquals (kw ("NOT")) then
      let opToken := st.curr
      let res := res.registerStep
      let st := st.step
      let (sub, st) := Parser.compExpr f st
      let (res, nodeOpt) := res.register sub
      if res.error.isSome then (res, st)
      else (res.success (.unaryOp opToken (nodeOpt.getD nullNode)), st)
    else
      let (sub, st) := Parser.arithExpr f st
      let (res, leftOpt) := res.register sub
      if res.error.isSome then (res, st)
      else Parser.compLoop f res (leftOpt.getD nullNode) st

def Parser.compLoop : Nat → PRes → Node → PState → PRes × PState
  | 0, _, _, st => (fuelOutRes, st)
  | Nat.succ f, res, left, st =>
    let t := (PState.curr st).type
    if t == .EQ || t == .NE || t == .LT || t == .GT || t == .LTE || t == .GTE then
      let op := st.curr
      let res := res.registerStep
      let st := st.step
      let (sub, st) := Parser.arithExpr f st
      let (res, rightOpt) := res.register sub
      if res.error.isSome then
        (res.failure (invalidSyntaxAt st.curr ("Expected int, float, identifier, '+', '-', or '(', 'NOT'")), st)
      else Parser.compLoop f res (.binOp left op (rightOpt.getD nullNode)) st
    else (res.success left, st)

/-- `Parser.expr`: the `VAR IDENTIFIER = expr` alternative, else
`compExpr ((PLUS|MINUS|AND|OR) compExpr)*` (the JS loop tests `+`/`-` here
too, though `arithExpr` has already consumed them). -/
def Parser.expr : Nat → PState → PRes × PState
  | 0, st => (fuelOutRes, st)
  | Nat.succ f, st =>
    let res := emptyPRes
    if (PState.curr st).jsEquals (kw ("VAR")) then
      let res := res.registerStep
      let st := st.step
      if (PState.curr st).type != .IDENTIFIER then
        (res.failure (invalidSyntaxAt st.curr ("Expected identifier")), st)
      else
        let varName := st.curr
        let res := res.registerStep
        let st := st.step
        if (PState.curr st).type != .ASSIGN then
          (res.failure (invalidSyntaxAt st.curr ("Expected '='")), st)
        else
          let res := res.registerStep
          let st := st.step
          let (sub, st) := Parser.expr f st
          let (res, nodeOpt) := res.register sub
          if res.error.isSome then (res, st)
          else (res.success (.varAssign varName (nodeOpt.getD nullNode)), st)
    else
      let (sub, st) := Parser.compExpr f st
      let (res, leftOpt) := res.register sub
      if res.error.isSome then (res, st)
      else Parser.exprLoop f res (leftOpt.getD nullNode) st

def Parser.exprLoop : Nat → PRes → Node → PState → PRes × PState
  | 0, _, _, st => (fuelOutRes, st)
  | Nat.succ f, res, left, st =>
    let c := PState.curr st
    if c.type == .PLUS || c.type == .MINUS ||
        (c.type == .KEYWORD && (c.value == some (.str ("AND")) || c.value == some (.str ("OR")))) then
      let op := st.curr
      let res := res.registerStep
      let st := st.step
      let (sub, st) := Parser.compExpr f st
      let (res, rightOpt) := res.register sub
      if res.error.isSome then
        (res.failure (invalidSyntaxAt st.curr ("Expected 'VAR', int, float, identifier, '+', '-', or '('")), st)
      else Parser.exprLoop f res (.binOp left op (rightOpt.getD nullNode)) st
    else (res.success left, st)

/-- `Parser.ifExpr`.  The first case parses normally.  In the ELIF loop the
JS code calls `this.curr.equals(KEYWORD, 'DO')` — `equals` takes a single
argument, so the comparison reads `other.type` off the string `'KEYWORD'`
(undefined) and is always false; hence every ELIF arm fails with
"Expected 'THEN'" right after its condition, and the rest of the loop body
(including `cases.append`, itself not an array method) is unreachable. -/
def Parser.ifExpr : Nat → PState → PRes × PState
  | 0, st => (fuelOutRes, st)
  | Nat.succ f, st =>
    let res := emptyPRes
    if !(PState.curr st).jsEquals (kw ("IF")) then
      (res.failure (invalidSyntaxAt st.curr ("Expected 'IF'")), st)
    else
      let res := res.registerStep
      let st := st.step
      let (sub, st) := Parser.expr f st
      let (res, condOpt) := res.register sub
      if res.error.isSome then (res, st)
      else if !(PState.curr st).jsEquals (kw ("DO")) then
        (res.failure (invalidSyntaxAt st.curr ("Expected 'DO'")), st)
      else
        let res := res.registerStep
        let st := st.step
        let (sub, st) := Parser.expr f st
        let (res, bodyOpt) := res.register sub
        if res.error.isSome then (res, st)
        else
          let cases := [(condOpt.getD nullNode, bodyOpt.getD nullNode)]
          if (PState.curr st).jsEquals (kw ("ELIF")) then
            let res := res.registerStep
            let st := st.step
            let (sub, st) := Parser.expr f st
            let (res, _) := res.register sub
            if res.error.isSome then (res, st)
            else
              (res.failure (invalidSyntaxAt st.curr ("Expected 'THEN'")), st)
          else if (PState.curr st).jsEquals (kw ("ELSE")) then
            let res := res.registerStep
            let st := st.step
            let (sub, st) := Parser.expr f st
            let (res, elseOpt) := res.register sub
            if res.error.isSome then (res, st)
            else (res.success (.ifStmt cases (some (elseOpt.getD nullNode))), st)
          else (res.success (.ifStmt cases none), st)

/-- `Parser.forExpr`: `FOR IDENTIFIER = expr UPTO expr (STEP expr)? DO expr`. -/
def Parser.forExpr : Nat → PState → PRes × PState
  | 0, st => (fuelOutRes, st)
  | Nat.succ f, st =>
    let res := emptyPRes
    if !(PState.curr st).jsEquals (kw ("FOR")) then
      (res.failure (invalidSyntaxAt st.curr ("Expected 'FOR'")), st)
    else
      let res := res.registerStep
      let st := st.step
      if (PState.curr st).type != .IDENTIFIER then
        (res.failure (invalidSyntaxAt st.curr ("Expected identifier")), st)
      else
        let varName := st.curr
        let res := res.registerStep
        let st := st.step
        if (PState.curr st).type != .ASSIGN then
          (res.failure (invalidSyntaxAt st.curr ("Expected '='")), st)
        else
          let res := res.registerStep
          let st := st.step
          let (sub, st) := Parser.expr f st
          let (res, startOpt) := res.register sub
          if res.error.isSome then (res, st)
          else if !(PState.curr st).jsEquals (kw ("UPTO")) then
            (res.failure (invalidSyntaxAt st.curr ("Expected 'UPTO'")), st)
          else
            let res := res.registerStep
            let st := st.step
            let (sub, st) := Parser.expr f st
            let (res, endOpt) := res.register sub
            if res.error.isSome then (res, st)
            else
              let (res, stepOpt, st) :=
                if (PState.curr st).jsEquals (kw ("STEP")) then
                  let res := res.registerStep
                  let st := st.step
                  let (sub, st) := Parser.expr f st
                  let (res, sOpt) := res.register sub
                  (res, sOpt, st)
                else (res, none, st)
              if res.error.isSome then (res, st)
              else if !(PState.curr st).jsEquals (kw ("DO")) then
                (res.failure (invalidSyntaxAt st.curr ("Expected 'DO'")), st)
              else
                let res := res.registerStep
                let st := st.step
                let (sub, st) := Parser.expr f st
                let (res, bodyOpt) := res.register sub
                if res.error.isSome then (res, st)
                else
                  (res.success (.forNode varName (startOpt.getD nullNode) (endOpt.getD nullNode)
                    stepOpt (bodyOpt.getD nullNode)), st)

/-- `Parser.whileExpr`: `WHILE expr DO expr`. -/
def Parser.whileExpr : Nat → PState → PRes × PState
  | 0, st => (fuelOutRes, st)
  | Nat.succ f, st =>
    let res := emptyPRes
    if !(PState.curr st).jsEquals (kw ("WHILE")) then
      (res.failure (invalidSyntaxAt st.curr ("Expected 'WHILE'")), st)
    else
      let res := res.registerStep
      let st := st.step
      let (sub, st) := Parser.expr f st
      let (res, condOpt) := res.register sub
      if res.error.isSome then (res, st)
      else if !(PState.curr st).jsEquals (kw ("DO")) then
        (res.failure (invalidSyntaxAt st.curr ("Expected 'DO'")), st)
      else
        let res := res.registerStep
        let st := st.step
        let (sub, st) := Parser.expr f st
        let (res, bodyOpt) := res.register sub
        if res.error.isSome then (res, st)
        else (res.success (.whileNode (condOpt.getD nullNode) (bodyOpt.getD nullNode)), st)

end

/-- `Parser.parse`: one expression, then the current token must be EOF. -/
def Parser.parse (fuel : Nat) (tokens : List Token) : PRes :=
  let st : PState := ⟨tokens, 0⟩
  let (res, st) := Parser.expr fuel st
  if res.error == none && (PState.curr st).type != .EOF then
    res.failure (invalidSyntaxAt st.curr ("'Expected '+', '-', '*' or '/'"))
  else res

/-! ## Runtime values and the interpreter -/

/-- JS `class Number`: a numeric value annotated with an optional source span
and the owning context's name (used only for diagnostics). -/
structure Number where
  value : ℚ
  startP : Option Pos
  endP : Option Pos
  context : Option String
deriving Repr, DecidableEq

/-- `setPos(start, end)`. -/
def Number.setPos (n : Number) (s e : Option Pos) : Number :=
  { n with startP := s, endP := e }

/-- `copy()`: duplicates value, position and context; in the pure model this
is the identity (copy-on-read matters only for aliasing, which the model has
none of). -/
def Number.copy (n : Number) : Number := n

/-- Each arithmetic method returns a `[result, error]` pair. -/
def Number.add (a b : Number) : Option Number × Option Error :=
  (some ⟨a.value + b.value, none, none, a.context⟩, none)

def Number.subtract (a b : Number) : Option Number × Option Error :=
  (some ⟨a.value - b.value, none, none, a.context⟩, none)

def Number.multiply (a b : Number) : Option Number × Option Error :=
  (some ⟨a.value * b.value, none, none, a.context⟩, none)

/-- `divide`: a zero right operand produces the "Division by zero" runtime
error, whose span is the right operand's (`other.start`, `other.end`). -/
def Number.divide (a b : Number) : Option Number × Option Error :=
  if b.value = 0 then
    (none, some ⟨b.startP, b.endP, "Runtime Error", "Division by zero", a.context⟩)
  else
    (some ⟨a.value / b.value, none, none, a.context⟩, none)

/-- `Math.pow` restricted to the exactly-representable cases: an integer
exponent gives the exact rational power (with `Math.pow(0, -n)`'s `Infinity`
outside the model, `0⁻¹ = 0` here).  A non-integer exponent would produce an
irrational (or NaN) double; no program studied here reaches that branch, and
the model returns 0 there. -/
def jsPow (a b : ℚ) : ℚ :=
  if b.den = 1 then
    (if 0 ≤ b.num then a ^ b.num.toNat else (a ^ (-b.num).toNat)⁻¹)
  else 0

def Number.pow (a b : Number) : Option Number × Option Error :=
  (some ⟨jsPow a.value b.value, none, none, a.context⟩, none)

/-- `+(this.value === other.value)` and friends: 1 or 0. -/
def Number.getCompEq (a b : Number) : Option Number × Option Error :=
  (some ⟨if a.value = b.value then 1 else 0, none, none, a.context⟩, none)

def Number.getCompNe (a b : Number) : Option Number × Option Error :=
  (some ⟨if a.value ≠ b.value then 1 else 0, none, none, a.context⟩, none)

def Number.getCompLt (a b : Number) : Option Number × Option Error :=
  (some ⟨if a.value < b.value then 1 else 0, none, none, a.context⟩, none)

def Number.getCompLte (a b : Number) : Option Number × Option Error :=
  (some ⟨if a.value ≤ b.value then 1 else 0, none, none, a.context⟩, none)

def Number.getCompGt (a b : Number) : Option Number × Option Error :=
  (some ⟨if b.value < a.value then 1 else 0, none, none, a.context⟩, none)

def Number.getCompGte (a b : Number) : Option Number × Option Error :=
  (some ⟨if b.value ≤ a.value then 1 else 0, none, none, a.context⟩, none)

/-- `getAnd`: `+(this.value === 1 && other.value === 1)` — note the source
compares with `1` exactly, not with "nonzero". -/
def Number.getAnd (a b : Number) : Option Number × Option Error :=
  (some ⟨if a.value = 1 ∧ b.value = 1 then 1 else 0, none, none, a.context⟩, none)

/-- `getOr`: `+(this.value === 1 || other.value === 1)`. -/
def Number.getOr (a b : Number) : Option Number × Option Error :=
  (some ⟨if a.value = 1 ∨ b.value = 1 then 1 else 0, none, none, a.context⟩, none)

/-- JS `class SymbolTable` backed by a `Map`, insertion-ordered, updated in
place.  The `parent` field is never set to anything but `null` anywhere in
the source, so the parent walk in `get` is omitted.  A stored slot is an
`Option Number` because `traverseVariableAssignNode` stores whatever
`register` handed back — which is JS `null` when the assigned expression was
a valueless construct (a loop, an unmatched IF without ELSE). -/
abbrev SymTab := List (String × Option Number)

/-- `get`: `none` = key absent (JS `undefined`); `some none` = key bound to
JS `null`. -/
def SymTab.get : SymTab → String → Option (Option Number)
  | [], _ => none
  | (k, v) :: rest, key => if k = key then some v else SymTab.get rest key

/-- `set`: replace in place, else append (JS `Map#set`). -/
def SymTab.set : SymTab → String → Option Number → SymTab
  | [], key, v => [(key, v)]
  | (k, w) :: rest, key, v =>
    if k = key then (key, v) :: rest else (k, w) :: SymTab.set rest key v

/-- JS `class RTResult`: runtime value/error pair. -/
structure RTRes where
  value : Option Number
  error : Option Error
deriving Repr, DecidableEq

/-- An uncaught JS exception escaping `run` (the embedding's `Except.error`
side), or the embedding's own fuel sentinel. -/
inductive JsErr where
  | typeError (msg : String)
  | fuelExhausted
deriving Repr, DecidableEq

/-- Read a number-token's value (`node.token.value`); the parser only builds
`NumberNode`s from INT/FLOAT tokens, so the fallback is unreachable. -/
def tokNumValue (t : Token) : ℚ :=
  match t.value with
  | some (.num q) => q
  | _ => 0

/-- Read an identifier-token's text; the parser only builds variable nodes
from IDENTIFIER tokens, so the fallback is unreachable. -/
def tokStrValue (t : Token) : String :=
  match t.value with
  | some (.str s) => s
  | _ => ""

mutual

/-- `Interpreter.traverse(node, ctx)`, with the context's symbol table
threaded explicitly and the context reduced to its name (its parent and
parent position are always `null` in the source).  `Except.error` is an
uncaught JS exception. -/
def Interpreter.traverse : Nat → Node → String → SymTab → Except JsErr (SymTab × RTRes)
  | 0, _, _, _ => .error .fuelExhausted
  | Nat.succ f, node, ctx, tbl =>
    match node with
    | .num tok =>
      .ok (tbl, ⟨some ⟨tokNumValue tok, tok.startP, tok.endP, some ctx⟩, none⟩)
    | .varAccess tok =>
      let varName := tokStrValue tok
      match SymTab.get tbl varName with
      | none =>
        .ok (tbl, ⟨none, some ⟨tok.startP, tok.endP, "Runtime Error",
          "'" ++ varName ++ "' is not defined", some ctx⟩⟩)
      | some none =>
        -- the stored slot holds JS null: `value.copy()` throws
        .error (.typeError ("Cannot read properties of null (reading 'copy')"))
      | some (some v) =>
        .ok (tbl, ⟨some ((Number.copy v).setPos tok.startP tok.endP), none⟩)
    | .varAssign tok valNode =>
      match Interpreter.traverse f valNode ctx tbl with
      | .error e => .error e
      | .ok (tbl₁, r₁) =>
        match r₁.error with
        | some e => .ok (tbl₁, ⟨none, some e⟩)
        | none => .ok (SymTab.set tbl₁ (tokStrValue tok) r₁.value, ⟨r₁.value, none⟩)
    | .binOp lN opTok rN =>
      match Interpreter.traverse f lN ctx tbl with
      | .error e => .error e
      | .ok (tbl₁, rl) =>
        if rl.error.isSome then .ok (tbl₁, ⟨none, rl.error⟩)
        else match Interpreter.traverse f rN ctx tbl₁ with
        | .error e => .error e
        | .ok (tbl₂, rr) =>
          if rr.error.isSome then .ok (tbl₂, ⟨none, rr.error⟩)
          else match rl.value, rr.value with
          | none, _ =>
            -- left is JS null: calling any Number method on it throws
            .error (.typeError ("Cannot read properties of null (reading a Number method)"))
          | some _, none =>
            -- right is not a Number: the method body returns undefined and the
            -- destructuring `[res, error] = ...` throws
            .error (.typeError ("undefined is not iterable"))
          | some L, some R =>
            let (resOpt, errOpt) :=
              match opTok.type with
              | .PLUS => L.add R
              | .MINUS => L.subtract R
              | .MUL => L.multiply R
              | .DIV => L.divide R
              | .POW => L.pow R
              | .EQ => L.getCompEq R
              | .NE => L.getCompNe R
              | .LT => L.getCompLt R
              | .LTE => L.getCompLte R
              | .GT => L.getCompGt R
              | .GTE => L.getCompGte R
              | _ =>
                if opTok.jsEquals (kw ("AND")) then L.getAnd R
                else if opTok.jsEquals (kw ("OR")) then L.getOr R
                else (none, none)
            match errOpt with
            | some e => .ok (tbl₂, ⟨none, some e⟩)
            | none =>
              match resOpt with
              | some resN =>
                .ok (tbl₂, ⟨some (resN.setPos (Node.binOp lN opTok rN).startP
                  (Node.binOp lN opTok rN).endP), none⟩)
              | none =>
                -- no operator branch matched: `res` stayed null, `res.setPos` throws
                .error (.typeError ("Cannot read properties of null (reading 'setPos')"))
    | .unaryOp opTok subN =>
      match Interpreter.traverse f subN ctx tbl with
      | .error e => .error e
      | .ok (tbl₁, rs) =>
        if rs.error.isSome then .ok (tbl₁, ⟨none, rs.error⟩)
        else if opTok.type == .MINUS then
          match rs.value with
          | none => .error (.typeError ("Cannot read properties of null (reading 'multiply')"))
          | some n =>
            match n.multiply ⟨-1, none, none, none⟩ with
            | (some m, _) =>
              .ok (tbl₁, ⟨some (m.setPos (Node.unaryOp opTok subN).startP
                (Node.unaryOp opTok subN).endP), none⟩)
            | (none, _) => .error (.typeError ("Cannot read properties of null (reading 'setPos')"))
        else if opTok.jsEquals (kw ("NOT")) then
          -- `num.negate()`: class Number defines no `negate` method, so
          -- evaluating unary NOT always throws an uncaught TypeError.
          match rs.value with
          | none => .error (.typeError ("Cannot read properties of null (reading 'negate')"))
          | some _ => .error (.typeError ("num.negate is not a function"))
        else
          match rs.value with
          | none => .error (.typeError ("Cannot read properties of null (reading 'setPos')"))
          | some n =>
            .ok (tbl₁, ⟨some (n.setPos (Node.unaryOp opTok subN).startP
              (Node.unaryOp opTok subN).endP), none⟩)
    | .ifStmt cases elseCase => Interpreter.traverseCases f cases elseCase ctx tbl
    | .forNode varTok startN endN stepN bodyN =>
      match Interpreter.traverse f startN ctx tbl with
      | .error e => .error e
      | .ok (tbl₁, r₁) =>
        if r₁.error.isSome then .ok (tbl₁, ⟨none, r₁.error⟩)
        else match Interpreter.traverse f endN ctx tbl₁ with
        | .error e => .error e
        | .ok (tbl₂, r₂) =>
          if r₂.error.isSome then .ok (tbl₂, ⟨none, r₂.error⟩)
          else
            match (match stepN with
              | none => Except.ok (tbl₂, (⟨some ⟨1, none, none, none⟩, none⟩ : RTRes))
              | some sN => Interpreter.traverse f sN ctx tbl₂) with
            | .error e => .error e
            | .ok (tbl₃, r₃) =>
              if r₃.error.isSome then .ok (tbl₃, ⟨none, r₃.error⟩)
              else match r₁.value, r₂.value, r₃.value with
              | some sv, some ev, some stepv =>
                let i := sv.value
                let inc := 0 ≤ stepv.value
                if (inc ∧ i < ev.value) ∨ (¬ inc ∧ i > ev.value) then
                  let tbl₄ := SymTab.set tbl₃ (tokStrValue varTok) (some ⟨i, none, none, none⟩)
                  -- console.log(i): host console output, not modelled.
                  -- `i += stepVal.val`: Number has no field `val`, so `i`
                  -- becomes NaN here; on the next loop test both NaN < end and
                  -- NaN > end are false, hence the body below runs exactly once
                  -- and the loop then exits with success(null).
                  match Interpreter.traverse f bodyN ctx tbl₄ with
                  | .error e => .error e
                  | .ok (tbl₅, rb) =>
                    if rb.error.isSome then .ok (tbl₅, ⟨none, rb.error⟩)
                    else .ok (tbl₅, ⟨none, none⟩)
                else .ok (tbl₃, ⟨none, none⟩)
              | _, _, _ =>
                -- one of startVal/endVal/stepVal is JS null: reading `.value` throws
                .error (.typeError ("Cannot read properties of null (reading 'value')"))
    | .whileNode _ _ =>
      -- `const res = RTResult();` — invoking the class constructor without
      -- `new` throws immediately, before the condition is ever evaluated
      -- (which would fail anyway: WhileNode stores the condition under the
      -- misspelled field name `conditon`).
      .error (.typeError ("Class constructor RTResult cannot be invoked without 'new'"))

/-- The `for (let [cond, expr] of node.cases)` loop of
`traverseIfStatementNode`, followed by the else-case handling. -/
def Interpreter.traverseCases :
    Nat → List (Node × Node) → Option Node → String → SymTab → Except JsErr (SymTab × RTRes)
  | 0, _, _, _, _ => .error .fuelExhausted
  | Nat.succ f, [], elseCase, ctx, tbl =>
    match elseCase with
    | some eN =>
      match Interpreter.traverse f eN ctx tbl with
      | .error e => .error e
      | .ok (tbl₁, re) =>
        if re.error.isSome then .ok (tbl₁, ⟨none, re.error⟩)
        else .ok (tbl₁, ⟨re.value, none⟩)
    | none => .ok (tbl, ⟨none, none⟩)
  | Nat.succ f, (condN, exprN) :: rest, elseCase, ctx, tbl =>
    match Interpreter.traverse f condN ctx tbl with
    | .error e => .error e
    | .ok (tbl₁, rc) =>
      if rc.error.isSome then .ok (tbl₁, ⟨none, rc.error⟩)
      else match rc.value with
      | none => .error (.typeError ("Cannot read properties of null (reading 'value')"))
      | some cv =>
        if cv.value ≠ 0 then
          match Interpreter.traverse f exprN ctx tbl₁ with
          | .error e => .error e
          | .ok (tbl₂, rx) =>
            if rx.error.isSome then .ok (tbl₂, ⟨none, rx.error⟩)
            else .ok (tbl₂, ⟨rx.value, none⟩)
        else Interpreter.traverseCases f rest elseCase ctx tbl₁
end

/-- The `run(fileName, text)` entry point, with the process-wide `GLOBAL`
symbol table threaded explicitly (input table before the call, output table
after it).  The fuel passed to parser and interpreter grows with the text
and exceeds the recursion depth reachable on every program considered in the
theorems below. -/
def run (tbl : SymTab) (fileName : String) (text : String) :
    Except JsErr (SymTab × Option Number × Option Error) :=
  let (tokens, lexErr) := Lexer.makeTokens fileName text
  match lexErr with
  | some e => .ok (tbl, none, some e)
  | none =>
    let ast := Parser.parse (8 * (text.length + 2)) tokens
    match ast.error with
    | some e => .ok (tbl, none, some e)
    | none =>
      match Interpreter.traverse (8 * (text.length + 2)) (ast.node.getD nullNode)
          "<pop-main>" tbl with
      | .error e => .error e
      | .ok (tbl', r) => .ok (tbl', r.value, r.error)

/-! ## Statement helpers -/

/-- A token with no recorded position, used to state parser/interpreter
properties directly at the token level. -/
def bareTok (t : TokType) (v : Option TValue) : Token :=
  Token.make t v none none

/-- The global table as `run` leaves it after `VAR i = 0` on an empty table
(the literal `0` spans offsets 8–9 of the text). -/
def tblAfterVarI0 : SymTab :=
  [(("i"), some ⟨0, some ⟨8, 0, 8, ("<stdin>")⟩, some ⟨9, 0, 9, ("<stdin>")⟩,
    some ("<pop-main>")⟩)]

/-- The AST of `1/0` built from bare tokens. -/
def divByZeroNode : Node :=
  .binOp (.num (bareTok .INT (some (.num 1)))) (bareTok .DIV none)
    (.num (bareTok .INT (some (.num 0))))

/-! ## Claim theorems

Core `Rat` arithmetic is `@[irreducible]` for the elaborator; re-marking it
semireducible (local to this namespace) lets `decide`/`rfl` evaluate the
interpreter on concrete programs.  The kernel is unaffected either way. -/

attribute [local semireducible] Rat.add Rat.sub Rat.mul Rat.inv

/-- C1: the claim says `run` never raises an uncaught exception, in
particular on inputs reaching unary NOT, a WHILE loop, or an ELIF branch.
The code violates this: evaluating `NOT 1` calls the nonexistent
`Number.negate` method and evaluating any WHILE loop calls the `RTResult`
class constructor without `new`; both throw uncaught TypeErrors out of
`run`.  (An ELIF input does stay inside the contract: it is rejected by the
parser with an "Expected 'THEN'" diagnostic, because the arity-slipped
`equals(KEYWORD, 'DO')` check always fails.) -/
theorem c1_not_and_while_throw_uncaught :
    run [] ("<stdin>") ("NOT 1") = .error (.typeError ("num.negate is not a function"))
  ∧ run [] ("<stdin>") ("WHILE 0 DO 0")
      = .error (.typeError ("Class constructor RTResult cannot be invoked without 'new'"))
  ∧ (run [] ("<stdin>") ("IF 1 DO 1 ELIF 1 DO 2")).toOption.map
      (fun x => (x.2.1, x.2.2.map (fun e => (e.name, e.details))))
      = some (none, some (("Invalid Syntax"), ("Expected 'THEN'"))) :=
  ⟨rfl, rfl, by decide⟩

/-- C2: the global environment persists across `run` calls: starting from a
table with no bindings, `run(_, "VAR x = 5")` returns value 5 with no
diagnostic, and `run` on the resulting table with `"x + 1"` returns value 6
with no diagnostic. -/
theorem c2_global_env_persists :
    (run [] ("<stdin>") ("VAR x = 5")).toOption.map
      (fun x => (x.2.1.map Number.value, x.2.2)) = some (some 5, none)
  ∧ (run [] ("<stdin>") ("VAR x = 5")).toOption.bind
      (fun x => (run x.1 ("<stdin>") ("x + 1")).toOption.map
        (fun y => (y.2.1.map Number.value, y.2.2))) = some (some 6, none) :=
  ⟨by decide, by decide⟩

/-- C3: the claim says `run(_, "WHILE i < 3 DO VAR i = i + 1")` after
`VAR i = 0` runs 3 iterations and leaves `i` = 3.  The code instead throws
an uncaught TypeError the moment any ConditionalLoop is evaluated:
`traverseWhileNode` begins with `const res = RTResult();` (no `new`), so the
loop body is never reached (and the condition is stored under the misspelled
field `conditon`, so it could not be read either). -/
theorem c3_while_loop_throws :
    (run [] ("<stdin>") ("VAR i = 0")).toOption.map
      (fun x => (x.1, x.2.1.map Number.value, x.2.2))
      = some (tblAfterVarI0, some 0, none)
  ∧ run tblAfterVarI0 ("<stdin>") ("WHILE i < 3 DO VAR i = i + 1")
      = .error (.typeError ("Class constructor RTResult cannot be invoked without 'new'")) :=
  ⟨by decide, rfl⟩

/-- C4: the claim says `FOR i = 0 UPTO 3 DO VAR r = i` runs the body for
i = 0, 1, 2 and leaves `r` = 2 and `i` = 2.  The code's loop advances the
counter with `i += stepVal.val`; `Number` has no `val` field, so `i` becomes
NaN after the first pass and both loop comparisons turn false: the body runs
exactly once and the call leaves `r` = 0 and `i` = 0 (with the loop's usual
"no value" result and no diagnostic). -/
theorem c4_for_loop_single_iteration :
    (run [] ("<stdin>") ("FOR i = 0 UPTO 3 DO VAR r = i")).toOption.map
      (fun x => ((x.1.get ("i")).map (fun o => o.map Number.value),
                 (x.1.get ("r")).map (fun o => o.map Number.value),
                 x.2.1, x.2.2))
      = some (some (some 0), some (some 0), none, none) :=
  by decide

/-- C5 counterexample: the claim says any nonzero operand counts as true, so
`2 AND 3` should evaluate to 1.  It evaluates to 0: `getAnd` compares each
operand with `=== 1`, not with "nonzero". -/
theorem c5_nonzero_and_counterexample :
    (run [] ("<stdin>") ("2 AND 3")).toOption.map
      (fun x => (x.2.1.map Number.value, x.2.2)) = some (some 0, none)
  ∧ (0 : ℚ) ≠ 1 :=
  ⟨by decide, by norm_num⟩

/-- C5 amended: a BinaryOp whose operator is AND or OR evaluates both
operands (left first, then right, never short-circuiting — witnessed below
by `(VAR x = 1) OR (VAR y = 2)` binding `y` even though the left operand is
already true) and returns 1 or 0 according to comparison with the exact
value 1: AND yields 1 iff both operands equal 1, OR yields 1 iff at least
one equals 1. -/
theorem c5_and_or_compare_with_one :
    (∀ (a b : ℚ) (ctx : String) (tbl : SymTab),
      Interpreter.traverse 2
        (.binOp (.num (bareTok .INT (some (.num a)))) (kw ("AND"))
          (.num (bareTok .INT (some (.num b))))) ctx tbl
      = .ok (tbl, ⟨some ⟨if a = 1 ∧ b = 1 then 1 else 0, none, none, some ctx⟩, none⟩))
  ∧ (∀ (a b : ℚ) (ctx : String) (tbl : SymTab),
      Interpreter.traverse 2
        (.binOp (.num (bareTok .INT (some (.num a)))) (kw ("OR"))
          (.num (bareTok .INT (some (.num b))))) ctx tbl
      = .ok (tbl, ⟨some ⟨if a = 1 ∨ b = 1 then 1 else 0, none, none, some ctx⟩, none⟩))
  ∧ (run [] ("<stdin>") ("(VAR x = 1) OR (VAR y = 2)")).toOption.map
      (fun x => ((x.1.get ("x")).map (fun o => o.map Number.value),
                 (x.1.get ("y")).map (fun o => o.map Number.value),
                 x.2.1.map Number.value, x.2.2))
      = some (some (some 1), some (some 2), some 1, none) :=
  ⟨fun a b ctx tbl => rfl, fun a b ctx tbl => rfl, by decide⟩

/-- C6: the power operator is right-associative — for all literal values
a, b, c the token sequence `a ^ b ^ c` parses to the tree `a ^ (b ^ c)` (the
right operand of `^` is parsed by `factor`, which recurses back into
`power`) — and `run(_, "2^3^2")` returns 512 with no diagnostic. -/
theorem c6_power_right_assoc :
    (∀ a b c : ℚ,
      (Parser.parse 50 [bareTok .INT (some (.num a)), bareTok .POW none,
        bareTok .INT (some (.num b)), bareTok .POW none,
        bareTok .INT (some (.num c)), bareTok .EOF none]).node
      = some (.binOp (.num (bareTok .INT (some (.num a)))) (bareTok .POW none)
          (.binOp (.num (bareTok .INT (some (.num b)))) (bareTok .POW none)
            (.num (bareTok .INT (some (.num c)))))))
  ∧ (run [] ("<stdin>") ("2^3^2")).toOption.map
      (fun x => (x.2.1.map Number.value, x.2.2)) = some (some 512, none) :=
  ⟨fun a b c => rfl, by decide⟩

/-- C7: the furthest-progress rule.  `ParseResult.failure` keeps the result's
already-registered diagnostic exactly when one exists and the result has
consumed at least one token, and adopts the new diagnostic otherwise;
consequently on `"1 + DO"`, where the enclosing `arithExpr` (which had
consumed 2 tokens) and the inner `atom` attempt both produce a diagnostic,
the surfaced message is the inner one from the furthest point of the input
(`"Expected int, float, identifier, '+', '-' or '('"`), not the enclosing
alternative's `"..., 'NOT'"` message. -/
theorem c7_furthest_progress :
    (∀ (pr : PRes) (e : Error), pr.error ≠ none → pr.stepCount ≠ 0 →
      PRes.failure pr e = pr)
  ∧ (∀ (pr : PRes) (e : Error), pr.error = none ∨ pr.stepCount = 0 →
      (PRes.failure pr e).error = some e)
  ∧ (Parser.parse 50 (Lexer.makeTokens ("<stdin>") ("1 + DO")).1).error.map Error.details
      = some ("Expected int, float, identifier, '+', '-' or '('") :=
  ⟨fun pr e h1 h2 => by simp only [PRes.failure, if_neg (not_or.mpr ⟨h1, h2⟩)],
   fun pr e h => by simp only [PRes.failure, if_pos h],
   rfl⟩

/-- C7 witness: the failure law applied at concrete results — one that keeps
its deeper error (error present, 2 tokens consumed) and one that adopts the
new error (nothing consumed). -/
theorem c7_furthest_progress_witness :
    PRes.failure ⟨some fuelError, none, 2⟩ fuelError = ⟨some fuelError, none, 2⟩
  ∧ (PRes.failure ⟨none, none, 0⟩ fuelError).error = some fuelError :=
  ⟨c7_furthest_progress.1 ⟨some fuelError, none, 2⟩ fuelError (by decide) (by decide),
   c7_furthest_progress.2.1 ⟨none, none, 0⟩ fuelError (Or.inl rfl)⟩

/-- C8: a division whose right operand evaluates to exactly zero fails with a
"Division by zero" runtime diagnostic whose span is the right operand's span
and yields no value; concretely, `run(_, "3/0")` returns no value, leaves the
table untouched, and reports the diagnostic with span [2, 3) — exactly the
`0`. -/
theorem c8_division_by_zero_span :
    (∀ (a b : Number), b.value = 0 →
      Number.divide a b
        = (none, some ⟨b.startP, b.endP, ("Runtime Error"), ("Division by zero"), a.context⟩))
  ∧ (run [] ("<stdin>") ("3/0")).toOption.map (fun x => (x.1, x.2.1, x.2.2))
      = some ([], none, some ⟨some ⟨2, 0, 2, ("<stdin>")⟩, some ⟨3, 0, 3, ("<stdin>")⟩,
          ("Runtime Error"), ("Division by zero"), some ("<pop-main>")⟩) :=
  ⟨fun a b h => by simp [Number.divide, h], by decide⟩

/-- C8 witness: the divide law applied at the concrete operands 3 and 0. -/
theorem c8_division_by_zero_span_witness :
    Number.divide ⟨3, none, none, none⟩ ⟨0, none, none, none⟩
      = (none, some ⟨none, none, ("Runtime Error"), ("Division by zero"), none⟩) :=
  c8_division_by_zero_span.1 ⟨3, none, none, none⟩ ⟨0, none, none, none⟩ rfl

/-- C9: scanning `"1..2"` consumes `1.` as a float literal, leaves the second
dot unconsumed, and then fails the whole scan as an illegal character at that
dot (span [2, 3)), discarding all tokens scanned so far. -/
theorem c9_second_dot_illegal :
    Lexer.makeTokens ("<stdin>") ("1..2")
      = ([], some ⟨some ⟨2, 0, 2, ("<stdin>")⟩, some ⟨3, 0, 3, ("<stdin>")⟩,
          ("Illegal Character"), ("'.'"), none⟩) :=
  rfl

/-- C10 counterexample: the claim says a failed assignment leaves the symbol
table *completely* unchanged.  Running `VAR x = (VAR y = 5) + (1/0)` on the
empty table propagates the division-by-zero diagnostic and does not bind
`x`, but the table is not unchanged: the nested assignment inside the failed
value expression has already bound `y` to 5. -/
theorem c10_assign_side_effects_persist :
    (run [] ("<stdin>") ("VAR x = (VAR y = 5) + (1/0)")).toOption.map
      (fun x => ((x.1.get ("y")).map (fun o => o.map Number.value),
                 x.1.get ("x"), x.2.2.map (fun e => (e.name, e.details))))
      = some (some (some 5), none, some (("Runtime Error"), ("Division by zero")))
  ∧ SymTab.get [] ("y") = none :=
  ⟨by decide, rfl⟩

/-- C10 amended: if evaluating the value expression of an assignment
produces a runtime diagnostic, the assignment node performs no store of its
own — the resulting table is exactly the table left by the (possibly
side-effecting) evaluation of the value expression, the target name is not
bound by this node, and the diagnostic is propagated unchanged. -/
theorem c10_assign_no_store_on_error (fuel : Nat) (nameTok : Token) (valNode : Node)
    (ctx : String) (tbl tbl₁ : SymTab) (r₁ : RTRes) (e : Error)
    (h₁ : Interpreter.traverse fuel valNode ctx tbl = .ok (tbl₁, r₁))
    (h₂ : r₁.error = some e) :
    Interpreter.traverse (fuel + 1) (.varAssign nameTok valNode) ctx tbl
      = .ok (tbl₁, ⟨none, some e⟩) := by
  simp [Interpreter.traverse, h₁, h₂]

/-- C10 amended, witness: `VAR x = 1/0` evaluated on the empty table via the
amended theorem — the division fails, nothing is stored, the error is
propagated. -/
theorem c10_assign_no_store_on_error_witness :
    Interpreter.traverse 3 (.varAssign (bareTok .IDENTIFIER (some (.str ("x")))) divByZeroNode)
        ("<pop-main>") []
      = .ok ([], ⟨none, some ⟨none, none, ("Runtime Error"), ("Division by zero"),
          some ("<pop-main>")⟩⟩) :=
  c10_assign_no_store_on_error 2 (bareTok .IDENTIFIER (some (.str ("x")))) divByZeroNode
    ("<pop-main>") [] []
    ⟨none, some ⟨none, none, ("Runtime Error"), ("Division by zero"), some ("<pop-main>")⟩⟩
    ⟨none, none, ("Runtime Error"), ("Division by zero"), some ("<pop-main>")⟩
    rfl rfl

end Pop
